import Mathlib

/-!
Shallow embedding of `tools/statement-parser/parse_statement.py`: a
privacy-oriented bank-statement parser that detects the CSV layout,
normalizes rows into transaction records, categorizes each record through a
layered fallback chain (static mapping, substring rules, optional LLM
assistance), and emits an anonymized report.

Python strings are modelled as Lean `String` (a list of characters);
Python `float` amounts are modelled as `ℚ` with an explicit decimal-literal
parser; the external `afm` classifier subprocess is modelled as an abstract
function `String → Option String` (`none` = non-zero exit or timeout).
-/

/-! ### Python string primitives -/

/-- `listStartsWith p l` holds when `p` is a prefix of `l` (by `==` on characters). -/
def listStartsWith : List Char → List Char → Bool
  | [], _ => true
  | _ :: _, [] => false
  | a :: as, b :: bs => a == b && listStartsWith as bs

/-- `chListSub needle hay`: `needle` occurs as a contiguous sublist of `hay`. -/
def chListSub (needle : List Char) : List Char → Bool
  | [] => listStartsWith needle []
  | c :: t => listStartsWith needle (c :: t) || chListSub needle t

/-- Python `needle in hay` on strings (substring containment; `""` is in everything). -/
def pyIn (needle hay : String) : Bool := chListSub needle.data hay.data

/-- Python `str.lower()` (ASCII case folding, which is all the source needs). -/
def pyLower (s : String) : String := ⟨s.data.map Char.toLower⟩

/-- Python `str.upper()`. -/
def pyUpper (s : String) : String := ⟨s.data.map Char.toUpper⟩

/-- Python `str.strip()`: drop leading and trailing whitespace. -/
def pyStrip (s : String) : String :=
  ⟨((s.data.dropWhile Char.isWhitespace).reverse.dropWhile Char.isWhitespace).reverse⟩

/-- Accumulator-based whitespace tokenizer behind `pySplit`. -/
def wsTokensAux : List Char → List Char → List String
  | cur, [] => if cur.isEmpty then [] else [⟨cur.reverse⟩]
  | cur, c :: cs =>
    if c.isWhitespace then
      if cur.isEmpty then wsTokensAux [] cs else ⟨cur.reverse⟩ :: wsTokensAux [] cs
    else wsTokensAux (c :: cur) cs

/-- Python `str.split()` with no argument: split on whitespace runs, dropping empties. -/
def pySplit (s : String) : List String := wsTokensAux [] s.data

/-- Python `str.lstrip(chars)`: drop leading characters belonging to `chars`. -/
def lstripSet (s : String) (chars : String) : String :=
  ⟨s.data.dropWhile (fun c => chars.data.contains c)⟩

/-- Python `stdout.split('\n')`. -/
def splitNl (s : String) : List String := s.splitOn "\n"

/-- The source's `s.replace("$", "").replace(",", "")` on amount strings. -/
def stripMoney (s : String) : String := ⟨s.data.filter (fun c => c != '$' && c != ',')⟩

/-! ### Decimal parsing (Python `float` on the statement amount strings) -/

/-- Digits to a natural number, most significant first. -/
def parseDigits : List Char → Nat → Nat
  | [], acc => acc
  | c :: cs, acc => parseDigits cs (acc * 10 + (c.toNat - 48))

/-- Python `float(s)` restricted to the sign/decimal-literal forms that bank
statements carry (`"12"`, `"-3.40"`, `"+.5"`, `"7."`); scientific notation,
`inf`/`nan` and digit underscores are not modelled.  `none` models the
`ValueError` that the caller catches. -/
def pyFloat (s : String) : Option ℚ :=
  let t := (pyStrip s).data
  let neg : Bool := match t with | '-' :: _ => true | _ => false
  let t2 : List Char := match t with
    | '-' :: r => r
    | '+' :: r => r
    | _ => t
  let intPart := t2.takeWhile Char.isDigit
  let rest := t2.dropWhile Char.isDigit
  match rest with
  | [] =>
    if intPart.isEmpty then none
    else some (if neg then -(parseDigits intPart 0 : ℚ) else (parseDigits intPart 0 : ℚ))
  | '.' :: frac =>
    if frac.all Char.isDigit && !(intPart.isEmpty && frac.isEmpty) then
      let v : ℚ := (parseDigits (intPart ++ frac) 0 : ℚ) / ((10 : ℚ) ^ frac.length)
      some (if neg then -v else v)
    else none
  | _ => none

/-! ### CSV rows (`csv.DictReader` rows as association lists) -/

/-- One CSV row: a finite map from column name to cell text. -/
abbrev Row := List (String × String)

/-- Python `row.get(col, dflt)`: value of the first entry with that column
name, or the default. -/
def rget : Row → String → String → String
  | [], _, dflt => dflt
  | p :: t, col, dflt => if p.1 == col then p.2 else rget t col dflt

/-- Overwrite the value stored under column `c` (used to state that a column
is ignored by the parser). -/
def updateCol (row : Row) (c v : String) : Row :=
  row.map (fun p => if p.1 == c then (p.1, v) else p)

/-! ### Static data: formats, vocabulary, category mapping table -/

/-- One entry of the source's `FORMATS` table (a Python dict; optional keys
become `Option` fields). -/
structure Format where
  date_col : String
  description_col : String
  date_format : String
  amount_col : Option String := none
  cardholder_col : Option String := none
  debit_col : Option String := none
  credit_col : Option String := none
  category_col : Option String := none
  subcategory_col : Option String := none
deriving DecidableEq, Repr

def amexFormat : Format :=
  { date_col := "Date", amount_col := some "Amount", description_col := "Description",
    date_format := "%d/%m/%Y", cardholder_col := some "Card Member" }

def commbankFormat : Format :=
  { date_col := "Date", amount_col := some "Amount", description_col := "Description",
    date_format := "%d/%m/%Y" }

def pocketbookFormat : Format :=
  { date_col := "Transaction Date", debit_col := some "Debit", credit_col := some "Credit",
    description_col := "Details", category_col := some "Category",
    subcategory_col := some "Subcategory", date_format := "%d %b %Y" }

/-- The source's `FORMATS` dict. -/
def FORMATS : List (String × Format) :=
  [("amex", amexFormat), ("commbank", commbankFormat), ("pocketbook", pocketbookFormat)]

def lookupFormat (name : String) : Option Format :=
  (FORMATS.find? (fun p => p.1 == name)).map (fun p => p.2)

/-- The source's built-in `VALID_CATEGORIES` list. -/
def VALID_CATEGORIES : List String :=
  ["Groceries", "Coffee", "Dining Out", "Food Delivery",
   "Alcohol", "Treats", "Shopping", "Transport", "Fuel",
   "Utilities", "Subscriptions", "Health & Beauty", "Health",
   "Kids", "Insurance", "Entertainment", "Travel", "Education",
   "Gifts", "Home", "Pets", "Fitness", "Transfer", "Income", "Uncategorized"]

/-- The source's `CATEGORY_MAPPING` dict, as an association list
`((external category, external subcategory), our category)`. -/
def CATEGORY_MAPPING : List ((String × String) × String) :=
  [(("Food & Drink", "Coffee & Tea"), "Coffee"),
   (("Food & Drink", "Groceries"), "Groceries"),
   (("Food & Drink", "Restaurants"), "Dining Out"),
   (("Food & Drink", "Fast Food"), "Dining Out"),
   (("Food & Drink", "Bars & Pubs"), "Alcohol"),
   (("Food & Drink", "Alcohol"), "Alcohol"),
   (("Food & Drink", "Snacks"), "Treats"),
   (("Food & Drink", "Tobacco"), "Treats"),
   (("Food & Drink", "Other Food Expenses"), "Dining Out"),
   (("Food & Drink", ""), "Dining Out"),
   (("Transportation", "Public Transit"), "Transport"),
   (("Transportation", "Fuel"), "Fuel"),
   (("Transportation", "Parking"), "Transport"),
   (("Transportation", "Parking & Tolls"), "Transport"),
   (("Transportation", "Taxi & Rideshare"), "Transport"),
   (("Transportation", "Auto Supplies"), "Transport"),
   (("Transportation", ""), "Transport"),
   (("Shopping", "Clothing"), "Shopping"),
   (("Shopping", "Electronics"), "Shopping"),
   (("Shopping", "General"), "Shopping"),
   (("Shopping", ""), "Shopping"),
   (("Bills & Utilities", "Phone"), "Utilities"),
   (("Bills & Utilities", "Internet"), "Utilities"),
   (("Bills & Utilities", "Electricity"), "Utilities"),
   (("Bills & Utilities", "Gas"), "Utilities"),
   (("Bills & Utilities", ""), "Utilities"),
   (("Entertainment", "Streaming"), "Subscriptions"),
   (("Entertainment", "Movies"), "Entertainment"),
   (("Entertainment", ""), "Entertainment"),
   (("Leisure", "Games"), "Entertainment"),
   (("Leisure", "Books & News"), "Entertainment"),
   (("Leisure", "Art"), "Entertainment"),
   (("Leisure", ""), "Entertainment"),
   (("Health & Fitness", "Pharmacy"), "Health"),
   (("Health & Fitness", "Gym"), "Fitness"),
   (("Health & Fitness", ""), "Health"),
   (("Sports & Fitness", "Memberships"), "Fitness"),
   (("Sports & Fitness", ""), "Fitness"),
   (("Health & Medical", "Doctor"), "Health"),
   (("Health & Medical", ""), "Health"),
   (("Personal Care", ""), "Health & Beauty"),
   (("Personal", "Beauty"), "Health & Beauty"),
   (("Personal", "Clothing"), "Shopping"),
   (("Personal", "Other Personal Expenses"), "Shopping"),
   (("Personal", ""), "Shopping"),
   (("Financial", "Transfers"), "Transfer"),
   (("Financial", "Direct Debits"), "Utilities"),
   (("Financial", ""), "Transfer"),
   (("Education", "Tuition & Fees"), "Education"),
   (("Education", ""), "Education"),
   (("Travel", "Accommodation"), "Travel"),
   (("Travel", ""), "Travel"),
   (("Gifts & Donations", ""), "Gifts"),
   (("Home", "Furnishings"), "Home"),
   (("Home", "Other Home Expenses"), "Home"),
   (("Home", ""), "Home"),
   (("Insurance", "Financial Insurance"), "Insurance"),
   (("Insurance", ""), "Insurance"),
   (("Tax", "Personal Taxes"), "Utilities"),
   (("Tax", ""), "Utilities"),
   (("Services", "Government"), "Utilities"),
   (("Services", ""), "Shopping"),
   (("Business", "Services"), "Shopping"),
   (("Business", ""), "Shopping"),
   (("Kids", ""), "Kids"),
   (("Pets", ""), "Pets"),
   (("Income", ""), "Income"),
   (("Transfer", ""), "Transfer")]

/-- Python `CATEGORY_MAPPING.get((category, subcategory))` (`key in dict` + indexing). -/
def lookupMapping (category subcategory : String) : Option String :=
  (CATEGORY_MAPPING.find? (fun e => e.1.1 == category && e.1.2 == subcategory)).map
    (fun e => e.2)

/-- The source's `map_external_category`.  `glob` is the package-level
`VALID_CATEGORIES` global at call time (rewritten by `main` when categories
are fetched from the server, otherwise the built-in list). -/
def map_external_category (glob : List String) (category subcategory : String) : String :=
  match lookupMapping category subcategory with
  | some c => c
  | none =>
    match lookupMapping category "" with
    | some c => c
    | none =>
      match glob.find? (fun valid =>
          pyIn (pyLower valid) (pyLower category) || pyIn (pyLower category) (pyLower valid)) with
      | some v => v
      | none => "Uncategorized"

/-! ### Rule matching and LLM-response normalization -/

/-- One entry of the categories-config `rules` list. -/
structure Rule where
  pattern : String
  category : String
deriving DecidableEq, Repr

/-- The source's `categorize`: first rule whose upper-cased pattern occurs in
the upper-cased description wins; otherwise the config default. -/
def categorize (description : String) (rules : List Rule) (dflt : String) : String :=
  match rules.find? (fun r => pyIn (pyUpper r.pattern) (pyUpper description)) with
  | some r => r.category
  | none => dflt

/-- The source's `match_category`: strip the response, then try exact
membership, case-insensitive equality, and bidirectional case-insensitive
containment, scanning the vocabulary in order; no hit yields the sentinel. -/
def match_category (response : String) (valid_categories : List String) : String :=
  let s := pyStrip response
  if valid_categories.contains s then s
  else
    match valid_categories.find? (fun valid => pyLower valid == pyLower s) with
    | some valid => valid
    | none =>
      match valid_categories.find? (fun valid =>
          pyIn (pyLower valid) (pyLower s) || pyIn (pyLower s) (pyLower valid)) with
      | some valid => valid
      | none => "Uncategorized"

/-! ### Format detection -/

/-- The source's `detect_format`. -/
def detect_format (headers : List String) : Option String :=
  let headers_lower := headers.map pyLower
  if headers_lower.contains "card member" then some "amex"
  else if headers_lower.contains "transaction date" && headers_lower.contains "debit" then
    some "pocketbook"
  else if headers_lower.contains "date" && headers_lower.contains "amount" then
    some "commbank"
  else none

/-- Format selection at the top of `parse_csv`: an explicit `--format` name is
looked up (unknown name aborts the run), otherwise headers are auto-detected
(no detection aborts the run).  `Except.error` models `sys.exit(1)`. -/
def resolveFormat (format_name : Option String) (headers : List String) : Except String Format :=
  match format_name with
  | some n =>
    match lookupFormat n with
    | some f => Except.ok f
    | none => Except.error ("Error: Unknown format " ++ n)
  | none =>
    match detect_format headers with
    | some n =>
      match lookupFormat n with
      | some f => Except.ok f
      | none => Except.error "unreachable: detected names are all in FORMATS"
    | none => Except.error "Error: Could not detect format."

/-! ### Date parsing (`datetime.strptime` for the directives the formats use) -/

/-- Year/month/day as parsed from a statement date cell. -/
structure YMD where
  y : Nat
  m : Nat
  d : Nat
deriving DecidableEq, Repr

/-- Partially filled date fields while running a format string. -/
structure DParts where
  y : Option Nat := none
  m : Option Nat := none
  d : Option Nat := none
deriving DecidableEq, Repr

/-- Take up to `n` leading digits. -/
def takeDigits : Nat → List Char → (List Char × List Char)
  | 0, l => ([], l)
  | _ + 1, [] => ([], [])
  | n + 1, c :: cs =>
    if c.isDigit then
      let r := takeDigits n cs
      (c :: r.1, r.2)
    else ([], c :: cs)

/-- Month-abbreviation table for `%b` (lower-cased, matched case-insensitively). -/
def monthTable : List (Nat × String) :=
  [(1, "jan"), (2, "feb"), (3, "mar"), (4, "apr"), (5, "may"), (6, "jun"),
   (7, "jul"), (8, "aug"), (9, "sep"), (10, "oct"), (11, "nov"), (12, "dec")]

/-- Match a `%b` month abbreviation at the head of the input. -/
def matchMonth (l : List Char) : Option (Nat × List Char) :=
  monthTable.findSome? (fun p =>
    if listStartsWith p.2.data (l.map Char.toLower) then some (p.1, l.drop 3) else none)

/-- Run a `strptime` format over the input.  Supports the directives the
source uses (`%d`, `%m`, `%Y`, `%b`) plus literal characters; `%d`/`%m`
accept one or two digits and `%Y` exactly four, as CPython does. -/
def runFmt : List Char → List Char → DParts → Option DParts
  | [], [], acc => some acc
  | [], _ :: _, _ => none
  | '%' :: f :: fs, s, acc =>
    if f == 'd' then
      match takeDigits 2 s with
      | ([], _) => none
      | (ds, rest) => runFmt fs rest { acc with d := some (parseDigits ds 0) }
    else if f == 'm' then
      match takeDigits 2 s with
      | ([], _) => none
      | (ds, rest) => runFmt fs rest { acc with m := some (parseDigits ds 0) }
    else if f == 'Y' then
      match takeDigits 4 s with
      | (ds, rest) => if ds.length == 4 then runFmt fs rest { acc with y := some (parseDigits ds 0) } else none
    else if f == 'b' then
      match matchMonth s with
      | some (n, rest) => runFmt fs rest { acc with m := some n }
      | none => none
    else none
  | c :: fs, s, acc =>
    match s with
    | c2 :: ss => if c == c2 then runFmt fs ss acc else none
    | [] => none

def isLeap (y : Nat) : Bool := (y % 4 == 0 && y % 100 != 0) || y % 400 == 0

def daysInMonth (y m : Nat) : Nat :=
  if m == 2 then (if isLeap y then 29 else 28)
  else if [4, 6, 9, 11].contains m then 30 else 31

/-- `datetime.strptime(s, fmt)` for the formats in play: run the format, then
validate the calendar fields (CPython raises `ValueError` on out-of-range
days).  The formats used always bind all three fields, so the Python default
of 1900-01-01 for missing fields is not needed. -/
def strptimeYMD (s fmt : String) : Option YMD :=
  match runFmt fmt.data s.data {} with
  | some parts =>
    match parts.y, parts.m, parts.d with
    | some y, some m, some d =>
      if 1 ≤ m && m ≤ 12 && 1 ≤ d && d ≤ daysInMonth y m then some ⟨y, m, d⟩ else none
    | _, _, _ => none
  | none => none

def pad2 (n : Nat) : String := if n < 10 then "0" ++ toString n else toString n

def pad4 (n : Nat) : String :=
  if n < 10 then "000" ++ toString n
  else if n < 100 then "00" ++ toString n
  else if n < 1000 then "0" ++ toString n
  else toString n

/-- `dt.strftime("%Y-%m-%d")`. -/
def fmtYMD (x : YMD) : String := pad4 x.y ++ "-" ++ pad2 x.m ++ "-" ++ pad2 x.d

/-- The source's `parse_date`: try the declared format, then a fixed fallback
sequence, and pass the original string through unchanged when all fail. -/
def parse_date (date_str fmt : String) : String :=
  match strptimeYMD (pyStrip date_str) fmt with
  | some x => fmtYMD x
  | none =>
    match ["%d/%m/%Y", "%Y-%m-%d", "%d-%m-%Y", "%m/%d/%Y"].findSome?
        (fun alt => strptimeYMD (pyStrip date_str) alt) with
    | some x => fmtYMD x
    | none => date_str

/-! ### Row normalization (the loop body of `parse_csv`) -/

/-- A transaction record as built inside `parse_csv` (`_description` kept
temporarily, dropped from all output). -/
structure Tx where
  date : String
  amount : ℚ
  category : String
  is_expense : Bool
  descr : String
deriving DecidableEq, Repr

/-- What one loop iteration does with a row: produce a record, skip silently
(debit/credit both empty), or skip with a logged warning (caught
`ValueError`/`KeyError`). -/
inductive RowOutcome where
  | ok (tx : Tx)
  | skipSilent
  | skipWarn
deriving DecidableEq, Repr

def RowOutcome.tx? : RowOutcome → Option Tx
  | .ok t => some t
  | _ => none

/-- The category computed for a row that carries a source category column:
remap `(category, subcategory)` and, when the result equals the config
default, fall back to the substring rules (the source's
`if category == default_category` check). -/
def resolve_existing (glob : List String) (rules : List Rule) (dflt : String)
    (description existing_cat subcategory : String) : String :=
  let category := map_external_category glob existing_cat subcategory
  if category == dflt then categorize description rules dflt else category

/-- The category computed for one row: either the remap path (formats that
carry a source category column) or the plain rule path. -/
def rowCategory (glob : List String) (fmt : Format) (rules : List Rule) (dflt : String)
    (row : Row) (description : String) : String :=
  match fmt.category_col with
  | some ccol =>
    let existing_cat := pyStrip (rget row ccol "")
    let subcategory := pyStrip (rget row (fmt.subcategory_col.getD "") "")
    resolve_existing glob rules dflt description existing_cat subcategory
  | none => categorize description rules dflt

/-- The transaction record appended for a row whose amount parsed
(source lines 447-474): date, `abs(amount)`, category, flag, description. -/
def rowTx (glob : List String) (fmt : Format) (rules : List Rule) (dflt : String)
    (row : Row) (amount : ℚ) (is_expense : Bool) : Tx :=
  let description := pyStrip (rget row fmt.description_col "")
  { date := parse_date (rget row fmt.date_col "") fmt.date_format
    amount := |amount|
    category := rowCategory glob fmt rules dflt row description
    is_expense := is_expense
    descr := description }

/-- One iteration of the row loop (source lines 426-478): amount handling for
the debit/credit split or the single signed column, with `ValueError` from
`float` caught as a warned skip. -/
def parse_row (glob : List String) (fmt : Format) (rules : List Rule) (dflt : String)
    (row : Row) : RowOutcome :=
  match fmt.debit_col with
  | some dcol =>
    match fmt.credit_col with
    | none => RowOutcome.skipWarn
    | some ccol =>
      let debit_str := pyStrip (rget row dcol "")
      let credit_str := pyStrip (rget row ccol "")
      if debit_str ≠ "" then
        match pyFloat (stripMoney debit_str) with
        | none => RowOutcome.skipWarn
        | some a => RowOutcome.ok (rowTx glob fmt rules dflt row a true)
      else if credit_str ≠ "" then
        match pyFloat (stripMoney credit_str) with
        | none => RowOutcome.skipWarn
        | some a => RowOutcome.ok (rowTx glob fmt rules dflt row a false)
      else RowOutcome.skipSilent
  | none =>
    let amount_str := pyStrip (rget row (fmt.amount_col.getD "Amount") "0")
    match pyFloat (stripMoney amount_str) with
    | none => RowOutcome.skipWarn
    | some a => RowOutcome.ok (rowTx glob fmt rules dflt row a (decide (a > 0)))

/-- The whole row loop: skipped rows contribute nothing, the rest continue. -/
def runRows (glob : List String) (fmt : Format) (rules : List Rule) (dflt : String)
    (rows : List Row) : List Tx :=
  rows.filterMap (fun r => (parse_row glob fmt rules dflt r).tx?)

/-! ### LLM-assisted categorization (`categorize_with_afm`) -/

/-- `", ".join(c for c in valid_categories if c != "Uncategorized")`. -/
def categoriesList (valid : List String) : String :=
  ", ".intercalate (valid.filter (fun c => c != "Uncategorized"))

/-- The batched prompt (source lines 260-268). -/
def batchPrompt (descs : List String) (valid : List String) : String :=
  "Categorize each merchant into exactly one category from this list:\n"
    ++ categoriesList valid ++ "\n\nMerchants to categorize:\n"
    ++ String.join (descs.enum.map (fun p => toString (p.1 + 1) ++ ". " ++ p.2 ++ "\n"))
    ++ "\nRespond with ONLY the category for each, one per line, in the same order. No explanations."

/-- The per-merchant prompt of the individual fallback (source lines 304-310). -/
def individualPrompt (desc : String) (valid : List String) : String :=
  "Categorize this merchant into exactly one category.\n\nMerchant: " ++ desc
    ++ "\n\nCategories: " ++ categoriesList valid
    ++ "\n\nReply with ONLY the category name, nothing else."

/-- Response-line cleanup for the batch path: strip, then drop a leading
numbering marker such as `2. ` or `1: ` when the line starts with a digit. -/
def cleanLine (line : String) : String :=
  let category := pyStrip line
  if category ≠ "" && (category.data.headD ' ').isDigit then
    pyStrip (lstripSet category "0123456789.-): ")
  else category

/-- Batch-path results: zip descriptions with response lines (extra lines and
extra descriptions are dropped by `zip`), clean each line and normalize it. -/
def afmBatchResults (descs lines : List String) (valid : List String) :
    List (String × String) :=
  (descs.zip lines).map (fun p => (p.1, match_category (cleanLine p.2) valid))

/-- Individual fallback: one prompt per description; a failed invocation
(`none`) records the sentinel for that item only. -/
def individualResults (afm : String → Option String) (descs valid : List String) :
    List (String × String) :=
  descs.map (fun d =>
    (d, match afm (individualPrompt d valid) with
        | some out => match_category (pyStrip out) valid
        | none => "Uncategorized"))

/-- The source's `categorize_with_afm`.  `afmAvailable` models the `which
afm` probe (unavailable returns the empty dict); `afm` models one subprocess
invocation, `none` meaning non-zero exit or timeout.  With more than one
description a single batched prompt is tried first and the individual path is
the fallback. -/
def categorize_with_afm (afmAvailable : Bool) (afm : String → Option String)
    (descriptions : List String) (valid : List String) : List (String × String) :=
  if !afmAvailable then []
  else if descriptions.length > 1 then
    match afm (batchPrompt descriptions valid) with
    | some out => afmBatchResults descriptions (splitNl (pyStrip out)) valid
    | none => individualResults afm descriptions valid
  else individualResults afm descriptions valid

/-! ### Output assembly (`parse_csv` after the row loop) -/

/-- Association-list lookup (`desc in llm_categories` + indexing). -/
def alookup (l : List (String × String)) (k : String) : Option String :=
  (l.find? (fun p => p.1 == k)).map (fun p => p.2)

/-- The distinct descriptions whose category is still the config default after
the row loop (the source's `uncategorized_descriptions` set; Python set
iteration order is unspecified, modelled here by `List.dedup`). -/
def uncategorizedDescs (txs : List Tx) (dflt : String) : List String :=
  ((txs.filter (fun t => t.category == dflt)).map (fun t => t.descr)).dedup

/-- Apply the LLM results to transactions still carrying the default category
(source lines 488-492). -/
def applyLlm (llm : List (String × String)) (dflt : String) (txs : List Tx) : List Tx :=
  txs.map (fun tx =>
    if tx.category == dflt then
      match alookup llm tx.descr with
      | some c => { tx with category := c }
      | none => tx
    else tx)

/-- An anonymized output transaction: date, amount and category only. -/
structure Anon where
  date : String
  amount : ℚ
  category : String
deriving DecidableEq, Repr

/-- `category_counts` dict in first-encounter order. -/
def bumpCount : List (String × Nat) → String → List (String × Nat)
  | [], c => [(c, 1)]
  | (k, n) :: t, c => if k == c then (k, n + 1) :: t else (k, n) :: bumpCount t c

def buildCounts (cats : List String) : List (String × Nat) := cats.foldl bumpCount []

/-- The redacted hint for one description: its first whitespace token, or the
placeholder `"Unknown"` for a falsy (empty) description.  Descriptions are
stripped at parse time, so a non-empty one always has a first token; the
`headD` default is unreachable there. -/
def hintOf (s : String) : String :=
  if s == "" then "Unknown" else (pySplit s).headD "Unknown"

/-- The `uncategorized_hints` value: hints of still-default transactions,
deduplicated as a set and capped at 20 entries (source lines 527-532, 544). -/
def buildHints (txs : List Tx) (dflt : String) : List String :=
  (((txs.filter (fun t => t.category == dflt)).map (fun t => hintOf t.descr)).dedup).take 20

/-- Round-half-to-even at two decimals, modelling Python `round(x, 2)` on the
totals (exact on rationals; binary-float representation error is not
modelled and no claim depends on it). -/
def roundHalfEven (x : ℚ) : ℤ :=
  let f := Rat.floor x
  let r := x - f
  if r < 1 / 2 then f else if r > 1 / 2 then f + 1 else if f % 2 == 0 then f else f + 1

def round2 (x : ℚ) : ℚ := (roundHalfEven (x * 100) : ℚ) / 100

/-- The dictionary `parse_csv` returns. -/
structure Output where
  expenses : List Anon
  income : List Anon
  total_expenses : Nat
  total_income : Nat
  expense_total : ℚ
  income_total : ℚ
  by_category : List (String × Nat)
  uncategorized_hints : List String
deriving DecidableEq, Repr

/-- `cats_for_llm = valid_categories if valid_categories else VALID_CATEGORIES`
(Python truthiness: `None` and the empty list both fall back). -/
def catsForLlm (valid_categories : Option (List String)) : List String :=
  match valid_categories with
  | some l => if l.isEmpty then VALID_CATEGORIES else l
  | none => VALID_CATEGORIES

/-- The transaction list after the row loop and the optional LLM pass. -/
def pipelineTxs (glob : List String) (fmt : Format) (rules : List Rule) (dflt : String)
    (use_llm : Bool) (afmAvailable : Bool) (afm : String → Option String)
    (valid_categories : Option (List String)) (rows : List Row) : List Tx :=
  let txs0 := runRows glob fmt rules dflt rows
  let uncat := uncategorizedDescs txs0 dflt
  if use_llm && !uncat.isEmpty then
    applyLlm (categorize_with_afm afmAvailable afm uncat (catsForLlm valid_categories)) dflt txs0
  else txs0

/-- The transactions that survive the optional Transfer/Income exclusion
(source lines 499-502). -/
def keptTxs (glob : List String) (fmt : Format) (rules : List Rule) (dflt : String)
    (use_llm : Bool) (afmAvailable : Bool) (afm : String → Option String)
    (valid_categories : Option (List String)) (exclude_transfers : Bool)
    (rows : List Row) : List Tx :=
  (pipelineTxs glob fmt rules dflt use_llm afmAvailable afm valid_categories rows).filter
    (fun tx => !(exclude_transfers && (tx.category == "Transfer" || tx.category == "Income")))

/-- The anonymized expense entries (date, amount, category only). -/
def expensesOf (glob : List String) (fmt : Format) (rules : List Rule) (dflt : String)
    (use_llm : Bool) (afmAvailable : Bool) (afm : String → Option String)
    (valid_categories : Option (List String)) (exclude_transfers : Bool)
    (rows : List Row) : List Anon :=
  ((keptTxs glob fmt rules dflt use_llm afmAvailable afm valid_categories exclude_transfers
      rows).filter (fun t => t.is_expense)).map (fun t => Anon.mk t.date t.amount t.category)

/-- The anonymized income entries. -/
def incomeOf (glob : List String) (fmt : Format) (rules : List Rule) (dflt : String)
    (use_llm : Bool) (afmAvailable : Bool) (afm : String → Option String)
    (valid_categories : Option (List String)) (exclude_transfers : Bool)
    (rows : List Row) : List Anon :=
  ((keptTxs glob fmt rules dflt use_llm afmAvailable afm valid_categories exclude_transfers
      rows).filter (fun t => !t.is_expense)).map (fun t => Anon.mk t.date t.amount t.category)

/-- Output assembly for a resolved format (source lines 494-545). -/
def parse_csv_core (glob : List String) (fmt : Format) (rules : List Rule) (dflt : String)
    (use_llm : Bool) (afmAvailable : Bool) (afm : String → Option String)
    (valid_categories : Option (List String)) (exclude_transfers : Bool)
    (rows : List Row) : Output :=
  let expenses := expensesOf glob fmt rules dflt use_llm afmAvailable afm valid_categories
    exclude_transfers rows
  let income := incomeOf glob fmt rules dflt use_llm afmAvailable afm valid_categories
    exclude_transfers rows
  { expenses := expenses
    income := income
    total_expenses := expenses.length
    total_income := income.length
    expense_total := round2 ((expenses.map (fun e => e.amount)).sum)
    income_total := round2 ((income.map (fun i => i.amount)).sum)
    by_category := buildCounts ((keptTxs glob fmt rules dflt use_llm afmAvailable afm
      valid_categories exclude_transfers rows).map (fun t => t.category))
    uncategorized_hints := buildHints (pipelineTxs glob fmt rules dflt use_llm afmAvailable afm
      valid_categories rows) dflt }

/-- The source's `parse_csv`: resolve the format (an unknown explicit name or
a failed detection aborts the run, modelled as `Except.error`), then run the
row loop, the optional LLM pass, and the anonymized output assembly.
`glob` is the package-level `VALID_CATEGORIES` global; `rules`/`dflt` come
from the categories config; `valid_categories` is the server-fetched list. -/
def parse_csv (headers : List String) (rows : List Row) (format_name : Option String)
    (glob : List String) (rules : List Rule) (dflt : String)
    (use_llm : Bool) (afmAvailable : Bool) (afm : String → Option String)
    (valid_categories : Option (List String)) (exclude_transfers : Bool) :
    Except String Output :=
  match resolveFormat format_name headers with
  | Except.error e => Except.error e
  | Except.ok fmt =>
    Except.ok (parse_csv_core glob fmt rules dflt use_llm afmAvailable afm
      valid_categories exclude_transfers rows)

/-- The source's `generate_csv_for_import`: the CSV rows are exactly the
(date, amount, category) triples of the expense list — the row dictionaries
have no description field at all. -/
def generate_csv_for_import (expenses : List Anon) : List (String × ℚ × String) :=
  expenses.map (fun t => (t.date, t.amount, t.category))

/-! ### Web-search-assisted retry (spec §4.3 step 5, §6) -/

/-- Modelled from the spec: the web-search-assisted retry is described in the
specification (step 5 of the category resolver and the web-search external
interface) but no implementation of it exists under `src/`; only the rule,
remap and LLM stages are in `parse_statement.py`.  The number of snippets
kept is "a fixed number of short text snippets". -/
def SNIPPET_LIMIT : Nat := 5

/-- Modelled from the spec: HTML-entity unescaping "for the four common
entities (ampersand, quote, apostrophe, angle brackets)". -/
def unescapeEntities (s : String) : String :=
  ((((s.replace "&amp;" "&").replace "&quot;" "\"").replace "&#x27;" "\x27").replace
      "&lt;" "<").replace "&gt;" ">"

/-- Modelled from the spec: one best-effort text search keyed on the
description.  `search` models the HTTP GET against a public search results
page (`none` = network failure); `scrape` models the fixed pattern match that
extracts raw snippet texts from the page.  A failed search or an empty result
yields no additional context, never an error. -/
def extractSnippets (search : String → Option String) (scrape : String → List String)
    (query : String) : List String :=
  match search query with
  | none => []
  | some page => ((scrape page).map unescapeEntities).take SNIPPET_LIMIT

/-- Modelled from the spec: for every description whose category is still the
sentinel after response normalization, search for it, extract snippets, and
re-run the classification prompt with those snippets as context, normalizing
the reply against the vocabulary; a failed re-classification leaves the
sentinel; non-sentinel entries are untouched. -/
def webSearchRetry (classify : String → List String → Option String)
    (search : String → Option String) (scrape : String → List String)
    (valid : List String) (results : List (String × String)) : List (String × String) :=
  results.map (fun p =>
    if p.2 == "Uncategorized" then
      match classify p.1 (extractSnippets search scrape p.1) with
      | some reply => (p.1, match_category reply valid)
      | none => p
    else p)

/-- Modelled from the spec: the retry is opt-in; disabled, the normalized
results pass through unchanged. -/
def classifyWithWebRetry (webEnabled : Bool)
    (classify : String → List String → Option String)
    (search : String → Option String) (scrape : String → List String)
    (valid : List String) (results : List (String × String)) : List (String × String) :=
  if webEnabled then webSearchRetry classify search scrape valid results else results

/-! ### Spec-side mirror of the response-normalization contract (for C6) -/

/-- First vocabulary entry exactly equal to the (stripped) response. -/
def exactStage (s : String) (cats : List String) : Option String :=
  cats.find? (fun v => v == s)

/-- First vocabulary entry equal to the response up to case. -/
def ciStage (s : String) (cats : List String) : Option String :=
  cats.find? (fun v => pyLower v == pyLower s)

/-- First vocabulary entry related to the response by case-insensitive
substring containment in either direction. -/
def containStage (s : String) (cats : List String) : Option String :=
  cats.find? (fun v => pyIn (pyLower v) (pyLower s) || pyIn (pyLower s) (pyLower v))

/-- The claimed normalization contract, written as the spec states it: try the
three stages in order, first hit wins, no hit yields the sentinel. -/
def matchCategorySpec (response : String) (cats : List String) : String :=
  let s := pyStrip response
  (((exactStage s cats).orElse (fun _ => ciStage s cats)).orElse
      (fun _ => containStage s cats)).getD "Uncategorized"

/-! ### Helper lemmas -/

theorem find_beq_self {s : String} {l : List String} (h : s ∈ l) :
    l.find? (fun v => v == s) = some s := by
  induction l with
  | nil => cases h
  | cons a t ih =>
    by_cases ha : a = s
    · subst ha
      exact List.find?_cons_of_pos _ (by simp)
    · rw [List.find?_cons_of_neg _ (by simp [ha])]
      rcases List.mem_cons.mp h with h1 | h2
      · exact absurd h1.symm ha
      · exact ih h2

theorem contains_eq_decide (l : List String) (s : String) :
    l.contains s = decide (s ∈ l) := by
  simp [List.contains]

theorem pyIn_empty (h : String) : pyIn "" h = true := by
  obtain ⟨l⟩ := h
  cases l <;> simp [pyIn, chListSub, listStartsWith]

theorem pyLower_eq_empty {v : String} (h : pyLower v = "") : v = "" := by
  obtain ⟨l⟩ := v
  cases l with
  | nil => rfl
  | cons c cs => simp [pyLower, String.ext_iff] at h

theorem contains_lower_iff (headers : List String) (x : String) :
    ((headers.map pyLower).contains x = true) ↔ ∃ h ∈ headers, pyLower h = x := by
  rw [contains_eq_decide, decide_eq_true_iff, List.mem_map]

theorem contains_lower_eq (headers : List String) (x : String) :
    ((headers.map pyLower).contains x = true) = ∃ h ∈ headers, pyLower h = x :=
  propext (contains_lower_iff headers x)

theorem rget_updateCol_ne {c v col d : String} (h : col ≠ c) (row : Row) :
    rget (updateCol row c v) col d = rget row col d := by
  induction row with
  | nil => rfl
  | cons p t ih =>
    show rget ((if p.1 == c then (p.1, v) else p) :: updateCol t c v) col d = rget (p :: t) col d
    by_cases hpc : (p.1 == c) = true
    · have hp1 : p.1 = c := by simpa using hpc
      have hkey : (p.1 == col) = false := by
        simp only [beq_eq_false_iff_ne, ne_eq, hp1]
        exact fun hh => h hh.symm
      rw [if_pos hpc]
      show (if ((p.1, v).1 == col) = true then v else rget (updateCol t c v) col d) = rget (p :: t) col d
      rw [if_neg (by simp [hkey])]
      show rget (updateCol t c v) col d = rget (p :: t) col d
      rw [ih]
      show rget t col d = if (p.1 == col) = true then p.2 else rget t col d
      rw [if_neg (by simp [hkey])]
    · rw [if_neg hpc]
      show (if (p.1 == col) = true then p.2 else rget (updateCol t c v) col d) = rget (p :: t) col d
      by_cases hk : (p.1 == col) = true
      · rw [if_pos hk]
        show p.2 = if (p.1 == col) = true then p.2 else rget t col d
        rw [if_pos hk]
      · rw [if_neg hk, ih]
        show rget t col d = if (p.1 == col) = true then p.2 else rget t col d
        rw [if_neg hk]

theorem match_category_eq_spec (r : String) (cats : List String) :
    match_category r cats = matchCategorySpec r cats := by
  unfold match_category matchCategorySpec exactStage ciStage containStage
  by_cases hc : pyStrip r ∈ cats
  · simp [contains_eq_decide, hc, find_beq_self hc, Option.orElse]
  · have hfind : cats.find? (fun v => v == pyStrip r) = none := by
      rw [List.find?_eq_none]
      intro x hx hbeq
      exact hc ((eq_of_beq hbeq) ▸ hx)
    simp only [contains_eq_decide, decide_eq_false hc, Bool.false_eq_true, if_false, hfind]
    cases h2 : cats.find? (fun v => pyLower v == pyLower (pyStrip r)) with
    | some v => simp [Option.orElse]
    | none =>
      cases h3 : cats.find? (fun v =>
          pyIn (pyLower v) (pyLower (pyStrip r)) || pyIn (pyLower (pyStrip r)) (pyLower v)) with
      | some v => simp [Option.orElse]
      | none => simp [Option.orElse]

theorem match_category_mem (r : String) (cats : List String) :
    match_category r cats = "Uncategorized" ∨ match_category r cats ∈ cats := by
  unfold match_category
  by_cases hc : pyStrip r ∈ cats
  · simp [contains_eq_decide, hc]
  · simp only [contains_eq_decide, decide_eq_false hc, Bool.false_eq_true, if_false]
    cases h2 : cats.find? (fun v => pyLower v == pyLower (pyStrip r)) with
    | some v => exact Or.inr (List.mem_of_find?_eq_some h2)
    | none =>
      cases h3 : cats.find? (fun v =>
          pyIn (pyLower v) (pyLower (pyStrip r)) || pyIn (pyLower (pyStrip r)) (pyLower v)) with
      | some v => exact Or.inr (List.mem_of_find?_eq_some h3)
      | none => exact Or.inl rfl

theorem match_category_empty_resp (c : String) (rest : List String) (r : String)
    (hnc : ("" : String) ∉ c :: rest) (hr : pyStrip r = "") :
    match_category r (c :: rest) = c := by
  unfold match_category
  rw [hr]
  have hcont : ((c :: rest).contains "") = false := by
    rw [contains_eq_decide]; exact decide_eq_false hnc
  have h2 : (c :: rest).find? (fun v => pyLower v == pyLower "") = none := by
    rw [List.find?_eq_none]
    intro x hx hbeq
    exact hnc ((pyLower_eq_empty (eq_of_beq hbeq)) ▸ hx)
  have h3 : (c :: rest).find? (fun v =>
      pyIn (pyLower v) (pyLower "") || pyIn (pyLower "") (pyLower v)) = some c :=
    List.find?_cons_of_pos _ (by
      have he : pyLower "" = "" := rfl
      rw [he, pyIn_empty]; simp)
  have hne : ¬(("" : String) = c ∨ ("" : String) ∈ rest) := by
    simpa using hnc
  simp [hcont, h2, h3, hne]

/-- Convenience projection for stating concrete runs. -/
def runOutput (e : Except String Output) : Option Output := e.toOption

/-! ### Claim C6 -/

/-- C6: for every classifier response string and vocabulary list,
`match_category` returns the first vocabulary entry found by trying, in
order, exact equality, case-insensitive equality, then bidirectional
case-insensitive substring containment (scanning the vocabulary in order at
each stage), and returns the sentinel "Uncategorized" when no stage matches;
in particular the reply "I'm not sure" yields "Uncategorized" and never an
error. -/
theorem c6_response_normalization_contract :
    (∀ r cats, match_category r cats = matchCategorySpec r cats) ∧
    match_category "I\x27m not sure" VALID_CATEGORIES = "Uncategorized" :=
  ⟨match_category_eq_spec, by decide⟩

/-! ### Claim C9 -/

/-- C9 (counterexample): with the non-empty vocabulary `["X", ""]`, the empty
response hits the exact-equality stage on the `""` entry and returns `""`,
not the first vocabulary entry `"X"` — refuting the claim as stated for
every non-empty vocabulary list. -/
theorem c9_counterexample :
    match_category "" ["X", ""] = "" ∧ match_category "" ["X", ""] ≠ "X" := by
  exact ⟨by decide, by decide⟩

/-- C9 (amended): for every non-empty vocabulary that does not contain the
empty string, `match_category` on an empty or whitespace-only response
returns the first vocabulary entry (the empty stripped response is a
substring of every entry in the bidirectional containment stage), not the
sentinel. -/
theorem c9_empty_response_first_entry (c : String) (rest : List String) (r : String)
    (hnc : ("" : String) ∉ c :: rest) (hr : pyStrip r = "") :
    match_category r (c :: rest) = c :=
  match_category_empty_resp c rest r hnc hr

/-- C9 (witness): the amended statement evaluated on the whitespace-only
response `"   "` and the vocabulary `["Groceries", "Coffee"]`. -/
theorem c9_empty_response_witness :
    (("" : String) ∉ ["Groceries", "Coffee"]) ∧ pyStrip "   " = "" ∧
    match_category "   " ["Groceries", "Coffee"] = "Groceries" :=
  ⟨by decide, by decide,
    c9_empty_response_first_entry "Groceries" ["Coffee"] "   " (by decide) (by decide)⟩

/-! ### Claim C8 -/

set_option maxHeartbeats 1600000 in
/-- C8: format detection matches headers case-insensitively in a fixed
priority order — a cardholder column selects amex; otherwise a
transaction-date column together with a debit column selects pocketbook;
otherwise generic date and amount columns select commbank; otherwise
detection returns no format and, when no explicit format was supplied, the
run aborts with an explicit error. -/
theorem c8_detect_format_priority (headers : List String) :
    (detect_format headers = some "amex" ↔
      (∃ h ∈ headers, pyLower h = "card member")) ∧
    (detect_format headers = some "pocketbook" ↔
      (¬(∃ h ∈ headers, pyLower h = "card member") ∧
       (∃ h ∈ headers, pyLower h = "transaction date") ∧
       (∃ h ∈ headers, pyLower h = "debit"))) ∧
    (detect_format headers = some "commbank" ↔
      (¬(∃ h ∈ headers, pyLower h = "card member") ∧
       ¬((∃ h ∈ headers, pyLower h = "transaction date") ∧
          (∃ h ∈ headers, pyLower h = "debit")) ∧
       (∃ h ∈ headers, pyLower h = "date") ∧
       (∃ h ∈ headers, pyLower h = "amount"))) ∧
    (detect_format headers = none ↔
      (¬(∃ h ∈ headers, pyLower h = "card member") ∧
       ¬((∃ h ∈ headers, pyLower h = "transaction date") ∧
          (∃ h ∈ headers, pyLower h = "debit")) ∧
       ¬((∃ h ∈ headers, pyLower h = "date") ∧
          (∃ h ∈ headers, pyLower h = "amount")))) ∧
    (resolveFormat none headers = Except.error "Error: Could not detect format." ↔
      detect_format headers = none) := by
  have cm := contains_lower_eq headers "card member"
  have td := contains_lower_eq headers "transaction date"
  have db := contains_lower_eq headers "debit"
  have dt := contains_lower_eq headers "date"
  have am := contains_lower_eq headers "amount"
  have la : lookupFormat "amex" = some amexFormat := rfl
  have lc : lookupFormat "commbank" = some commbankFormat := rfl
  have lp : lookupFormat "pocketbook" = some pocketbookFormat := rfl
  simp only [detect_format, resolveFormat, Bool.and_eq_true, cm, td, db, dt, am]
  by_cases p1 : ∃ h ∈ headers, pyLower h = "card member" <;>
    by_cases p2 : ∃ h ∈ headers, pyLower h = "transaction date" <;>
      by_cases p3 : ∃ h ∈ headers, pyLower h = "debit" <;>
        by_cases p4 : ∃ h ∈ headers, pyLower h = "date" <;>
          by_cases p5 : ∃ h ∈ headers, pyLower h = "amount" <;>
            simp [p1, p2, p3, p4, p5, la, lc, lp]

/-! ### Claim C5 -/

unseal Rat.add Rat.mul Rat.inv Rat.sub in
/-- C5 (counterexample): with a categories config whose default category is
"Transfer" and a rule mapping pattern "X" to "Shopping", a pocketbook row
carrying the pair ("Financial", "Transfers") — present in the static mapping
table with value "Transfer" — resolves to "Shopping": the remap result
equals the config default, so the code falls through to the rule list,
refuting both "returns the mapped vocabulary entry" and "never consults the
substring rule list". -/
theorem c5_counterexample :
    runOutput (parse_csv
        ["Transaction Date", "Debit", "Credit", "Details", "Category", "Subcategory"]
        [[("Transaction Date", "11 Dec 2025"), ("Debit", "10.00"), ("Credit", ""),
          ("Details", "X GYM"), ("Category", "Financial"), ("Subcategory", "Transfers")]]
        (some "pocketbook") VALID_CATEGORIES [⟨"X", "Shopping"⟩] "Transfer"
        false false (fun _ => none) none false) =
      some
        { expenses := [⟨"2025-12-11", 10, "Shopping"⟩], income := [],
          total_expenses := 1, total_income := 0, expense_total := 10, income_total := 0,
          by_category := [("Shopping", 1)], uncategorized_hints := [] } ∧
    lookupMapping "Financial" "Transfers" = some "Transfer" ∧
    ("Shopping" : String) ≠ "Transfer" := by
  refine ⟨by decide, by decide, by decide⟩

/-- C5 (amended): for every pair present in the static mapping table whose
mapped entry differs from the configured default category (true in
particular for the stock default, the sentinel "Uncategorized", which no
table entry maps to), resolution deterministically returns the mapped entry
and never consults the substring rule list: the result is the same for any
rule list and any description. -/
theorem c5_static_mapping_bypasses_rules (glob : List String) (rules rules' : List Rule)
    (dflt d d' cat sub v : String)
    (hm : lookupMapping cat sub = some v) (hv : v ≠ dflt) :
    resolve_existing glob rules dflt d cat sub = v ∧
    resolve_existing glob rules' dflt d' cat sub = v := by
  unfold resolve_existing map_external_category
  rw [hm]
  have hbeq : (v == dflt) = false := by simp [hv]
  simp [hbeq]

/-- C5 (witness): the amended statement evaluated on the table pair
("Food & Drink", "Coffee & Tea") with the stock default "Uncategorized" and
two different rule lists. -/
theorem c5_static_mapping_witness :
    lookupMapping "Food & Drink" "Coffee & Tea" = some "Coffee" ∧
    ("Coffee" : String) ≠ "Uncategorized" ∧
    resolve_existing VALID_CATEGORIES [⟨"COFFEE", "Treats"⟩] "Uncategorized"
      "STARBUCKS COFFEE" "Food & Drink" "Coffee & Tea" = "Coffee" ∧
    resolve_existing VALID_CATEGORIES [] "Uncategorized"
      "ANY" "Food & Drink" "Coffee & Tea" = "Coffee" := by
  refine ⟨by decide, by decide, ?_, ?_⟩
  · exact (c5_static_mapping_bypasses_rules VALID_CATEGORIES [⟨"COFFEE", "Treats"⟩] []
      "Uncategorized" "STARBUCKS COFFEE" "ANY" "Food & Drink" "Coffee & Tea" "Coffee"
      (by decide) (by decide)).1
  · exact (c5_static_mapping_bypasses_rules VALID_CATEGORIES [⟨"COFFEE", "Treats"⟩] []
      "Uncategorized" "STARBUCKS COFFEE" "ANY" "Food & Drink" "Coffee & Tea" "Coffee"
      (by decide) (by decide)).2

/-! ### Claim C10 -/

theorem rowTx_credit_invariant (glob : List String) (rules : List Rule) (dflt : String)
    (row : Row) (a : ℚ) (e : Bool) (v : String) :
    rowTx glob pocketbookFormat rules dflt (updateCol row "Credit" v) a e =
      rowTx glob pocketbookFormat rules dflt row a e := by
  unfold rowTx rowCategory
  simp only [pocketbookFormat, Option.getD_some]
  rw [rget_updateCol_ne (by decide) row, rget_updateCol_ne (by decide) row,
    rget_updateCol_ne (by decide) row, rget_updateCol_ne (by decide) row]

theorem parse_row_debit_branch (glob : List String) (rules : List Rule) (dflt : String)
    (row : Row) (a : ℚ)
    (hd : pyStrip (rget row "Debit" "") ≠ "")
    (hf : pyFloat (stripMoney (pyStrip (rget row "Debit" ""))) = some a) :
    parse_row glob pocketbookFormat rules dflt row =
      RowOutcome.ok (rowTx glob pocketbookFormat rules dflt row a true) := by
  unfold parse_row
  rw [show pocketbookFormat.debit_col = some "Debit" from rfl]
  rw [show pocketbookFormat.credit_col = some "Credit" from rfl]
  simp only [if_pos hd, hf]

/-- C10: for every row of the debit/credit pocketbook format in which both
the debit field and the credit field are non-empty, the row is normalized as
an expense whose amount comes from the debit field, and the credit value is
ignored: overwriting the credit column with any value yields the identical
record. -/
theorem c10_debit_wins_over_credit (glob : List String) (rules : List Rule) (dflt : String)
    (row : Row) (a : ℚ)
    (hd : pyStrip (rget row "Debit" "") ≠ "")
    (hc : pyStrip (rget row "Credit" "") ≠ "")
    (hf : pyFloat (stripMoney (pyStrip (rget row "Debit" ""))) = some a) :
    ∃ tx, parse_row glob pocketbookFormat rules dflt row = RowOutcome.ok tx ∧
      tx.is_expense = true ∧ tx.amount = |a| ∧
      ∀ v, parse_row glob pocketbookFormat rules dflt (updateCol row "Credit" v) =
        RowOutcome.ok tx := by
  refine ⟨rowTx glob pocketbookFormat rules dflt row a true,
    parse_row_debit_branch glob rules dflt row a hd hf, rfl, rfl, ?_⟩
  intro v
  have hd' : pyStrip (rget (updateCol row "Credit" v) "Debit" "") ≠ "" := by
    rw [rget_updateCol_ne (by decide) row]; exact hd
  have hf' : pyFloat (stripMoney (pyStrip (rget (updateCol row "Credit" v) "Debit" ""))) =
      some a := by
    rw [rget_updateCol_ne (by decide) row]; exact hf
  rw [parse_row_debit_branch glob rules dflt (updateCol row "Credit" v) a hd' hf',
    rowTx_credit_invariant]

unseal Rat.add Rat.mul Rat.inv Rat.sub in
/-- C10 (witness): a concrete pocketbook row with `Debit = "10.00"` and
`Credit = "5.00"` is an expense of amount 10, and replacing the credit value
does not change the record. -/
theorem c10_debit_wins_witness :
    ∃ tx, parse_row VALID_CATEGORIES pocketbookFormat [] "Uncategorized"
        [("Transaction Date", "11 Dec 2025"), ("Debit", "10.00"), ("Credit", "5.00"),
         ("Details", "GYM"), ("Category", "Sports & Fitness"), ("Subcategory", "Memberships")] =
      RowOutcome.ok tx ∧ tx.is_expense = true ∧ tx.amount = |(10 : ℚ)| ∧
      ∀ v, parse_row VALID_CATEGORIES pocketbookFormat [] "Uncategorized"
          (updateCol
            [("Transaction Date", "11 Dec 2025"), ("Debit", "10.00"), ("Credit", "5.00"),
             ("Details", "GYM"), ("Category", "Sports & Fitness"), ("Subcategory", "Memberships")]
            "Credit" v) =
        RowOutcome.ok tx :=
  c10_debit_wins_over_credit VALID_CATEGORIES [] "Uncategorized" _ 10
    (by decide) (by decide) (by decide)

/-! ### Claim C2 -/

/-- C2: with AI-assisted classification and the web-search retry enabled,
every description still carrying the sentinel after response normalization
is re-classified: the retry performs a best-effort text search keyed on the
description, extracts short snippets, and re-runs the classification prompt
with those snippets as context, normalizing the reply against the
vocabulary; a search failure yields the empty snippet context rather than an
error, and a failed re-classification leaves the sentinel entry unchanged
(modelled from the spec: the retry stage is absent from `src/`). -/
theorem c2_web_search_retry (classify : String → List String → Option String)
    (search : String → Option String) (scrape : String → List String)
    (valid : List String) (results : List (String × String)) (d : String)
    (hmem : (d, "Uncategorized") ∈ results) :
    ((d, match classify d (extractSnippets search scrape d) with
         | some reply => match_category reply valid
         | none => "Uncategorized") ∈
      classifyWithWebRetry true classify search scrape valid results) ∧
    (search d = none → extractSnippets search scrape d = []) := by
  constructor
  · unfold classifyWithWebRetry webSearchRetry
    rw [if_pos rfl]
    apply List.mem_map.mpr
    refine ⟨(d, "Uncategorized"), hmem, ?_⟩
    cases h : classify d (extractSnippets search scrape d) <;> simp [h]
  · intro hs
    unfold extractSnippets
    rw [hs]

/-- C2 (witness): with a search that always fails and a classifier that
replies "Coffee", the sentinel entry for "STARBUCKS" is re-classified to
"Coffee" with the empty snippet context. -/
theorem c2_web_search_retry_witness :
    (("STARBUCKS", "Coffee") ∈
      classifyWithWebRetry true (fun _ _ => some "Coffee") (fun _ => none) (fun _ => [])
        VALID_CATEGORIES [("STARBUCKS", "Uncategorized")]) ∧
    extractSnippets (fun _ => none) (fun _ => []) "STARBUCKS" = [] := by
  have h := c2_web_search_retry (fun _ _ => some "Coffee") (fun _ => none) (fun _ => [])
    VALID_CATEGORIES [("STARBUCKS", "Uncategorized")] "STARBUCKS" (by decide)
  exact ⟨h.1, h.2 rfl⟩

/-! ### Claim C4 -/

unseal Rat.add Rat.mul Rat.inv Rat.sub in
/-- C4 (counterexample): a commbank-format row with no Amount column value at
all is NOT skipped: `row.get(amount_col, "0")` substitutes the default "0",
which parses, so the row contributes a zero-amount income record to the
output — refuting "a row whose required column value is absent is skipped
with a logged warning and never contributes a transaction record". -/
theorem c4_counterexample :
    parse_row VALID_CATEGORIES commbankFormat [] "Uncategorized"
        [("Date", "01/02/2024"), ("Description", "FOO BAR")] =
      RowOutcome.ok
        { date := "2024-02-01", amount := 0, category := "Uncategorized",
          is_expense := false, descr := "FOO BAR" } ∧
    runOutput (parse_csv ["Date", "Description"]
        [[("Date", "01/02/2024"), ("Description", "FOO BAR")]]
        (some "commbank") VALID_CATEGORIES [] "Uncategorized"
        false false (fun _ => none) none false) =
      some
        { expenses := [], income := [⟨"2024-02-01", 0, "Uncategorized"⟩],
          total_expenses := 0, total_income := 1, expense_total := 0, income_total := 0,
          by_category := [("Uncategorized", 1)], uncategorized_hints := ["FOO"] } := by
  exact ⟨by decide, by decide⟩

/-- C4 (amended): a row whose amount string fails numeric parsing is skipped
with a logged warning, contributes no transaction record, and never aborts
the run (the remaining rows are processed unchanged); a silently skipped
debit/credit row with both fields empty likewise contributes nothing.  An
absent column value, however, does not cause a skip: `row.get` substitutes a
default ("0" for a single amount column — producing a zero-amount income
record — and the empty string otherwise). -/
theorem c4_bad_amount_skips_row (glob : List String) (fmt : Format) (rules : List Rule)
    (dflt : String) (row : Row) (rest : List Row) :
    ((parse_row glob fmt rules dflt row = RowOutcome.skipWarn ∨
      parse_row glob fmt rules dflt row = RowOutcome.skipSilent) →
      runRows glob fmt rules dflt (row :: rest) = runRows glob fmt rules dflt rest) ∧
    (fmt.debit_col = none →
      pyFloat (stripMoney (pyStrip (rget row (fmt.amount_col.getD "Amount") "0"))) = none →
      parse_row glob fmt rules dflt row = RowOutcome.skipWarn) ∧
    (∀ dcol ccol, fmt.debit_col = some dcol → fmt.credit_col = some ccol →
      pyStrip (rget row dcol "") ≠ "" →
      pyFloat (stripMoney (pyStrip (rget row dcol ""))) = none →
      parse_row glob fmt rules dflt row = RowOutcome.skipWarn) ∧
    (∀ dcol ccol, fmt.debit_col = some dcol → fmt.credit_col = some ccol →
      pyStrip (rget row dcol "") = "" → pyStrip (rget row ccol "") ≠ "" →
      pyFloat (stripMoney (pyStrip (rget row ccol ""))) = none →
      parse_row glob fmt rules dflt row = RowOutcome.skipWarn) ∧
    (∀ dcol ccol, fmt.debit_col = some dcol → fmt.credit_col = some ccol →
      pyStrip (rget row dcol "") = "" → pyStrip (rget row ccol "") = "" →
      parse_row glob fmt rules dflt row = RowOutcome.skipSilent) := by
  refine ⟨?_, ?_, ?_, ?_, ?_⟩
  · intro h
    unfold runRows
    rcases h with h | h <;>
      · rw [List.filterMap_cons_none]
        rw [h]
        rfl
  · intro hdc hf
    unfold parse_row
    simp only [hdc]
    rw [hf]
  · intro dcol ccol hdc hcc hne hf
    unfold parse_row
    simp only [hdc, hcc]
    rw [if_pos hne, hf]
  · intro dcol ccol hdc hcc heq hne hf
    unfold parse_row
    simp only [hdc, hcc]
    rw [if_neg (by simp [heq]), if_pos hne, hf]
  · intro dcol ccol hdc hcc heq hceq
    unfold parse_row
    simp only [hdc, hcc]
    rw [if_neg (by simp [heq]), if_neg (by simp [hceq])]

/-- C4 (witness): the amended statement evaluated on a commbank row whose
amount cell is the unparsable "abc": the row is warn-skipped and drops out
of the processed list. -/
theorem c4_bad_amount_witness :
    parse_row VALID_CATEGORIES commbankFormat [] "Uncategorized"
        [("Date", "01/02/2024"), ("Amount", "abc"), ("Description", "X")] =
      RowOutcome.skipWarn ∧
    runRows VALID_CATEGORIES commbankFormat [] "Uncategorized"
        [[("Date", "01/02/2024"), ("Amount", "abc"), ("Description", "X")]] =
      runRows VALID_CATEGORIES commbankFormat [] "Uncategorized" [] := by
  have h := c4_bad_amount_skips_row VALID_CATEGORIES commbankFormat [] "Uncategorized"
    [("Date", "01/02/2024"), ("Amount", "abc"), ("Description", "X")] []
  have hw := h.2.1 (by decide) (by decide)
  exact ⟨hw, h.1 (Or.inl hw)⟩

/-! ### Hints: whitespace facts -/

theorem wsTokensAux_no_ws (l : List Char) :
    ∀ (cur : List Char), (∀ c ∈ cur, c.isWhitespace = false) →
      ∀ t ∈ wsTokensAux cur l, ∀ c ∈ t.data, c.isWhitespace = false := by
  induction l with
  | nil =>
    intro cur hcur t ht c hc
    unfold wsTokensAux at ht
    by_cases he : cur.isEmpty
    · simp [he] at ht
    · simp only [if_neg he, List.mem_singleton] at ht
      subst ht
      exact hcur c (List.mem_reverse.mp hc)
  | cons a as ih =>
    intro cur hcur t ht c hc
    unfold wsTokensAux at ht
    by_cases hw : a.isWhitespace
    · rw [if_pos hw] at ht
      by_cases he : cur.isEmpty
      · rw [if_pos he] at ht
        exact ih [] (by intro x hx; cases hx) t ht c hc
      · rw [if_neg he] at ht
        rcases List.mem_cons.mp ht with h1 | h2
        · subst h1
          exact hcur c (List.mem_reverse.mp hc)
        · exact ih [] (by intro x hx; cases hx) t h2 c hc
    · rw [if_neg hw] at ht
      refine ih (a :: cur) ?_ t ht c hc
      intro x hx
      rcases List.mem_cons.mp hx with h1 | h2
      · subst h1
        simpa using hw
      · exact hcur x h2

theorem wsTokensAux_two_tokens (l : List Char) :
    ∀ cur, 2 ≤ (wsTokensAux cur l).length → ∃ c ∈ l, c.isWhitespace = true := by
  induction l with
  | nil =>
    intro cur h
    unfold wsTokensAux at h
    by_cases he : cur.isEmpty <;> simp [he] at h
  | cons a as ih =>
    intro cur h
    by_cases hw : a.isWhitespace
    · exact ⟨a, List.mem_cons_self a as, hw⟩
    · unfold wsTokensAux at h
      rw [if_neg hw] at h
      obtain ⟨c, hc, hcw⟩ := ih (a :: cur) h
      exact ⟨c, List.mem_cons_of_mem a hc, hcw⟩

theorem pySplit_two_tokens {s : String} (h : 2 ≤ (pySplit s).length) :
    ∃ c ∈ s.data, c.isWhitespace = true :=
  wsTokensAux_two_tokens s.data [] h

theorem hintOf_no_ws (s : String) : ∀ c ∈ (hintOf s).data, c.isWhitespace = false := by
  unfold hintOf
  by_cases he : (s == "") = true
  · rw [if_pos he]
    decide
  · rw [if_neg he]
    cases hs : pySplit s with
    | nil => decide
    | cons t ts =>
      intro c hc
      have htm : t ∈ pySplit s := by
        rw [hs]
        exact List.mem_cons_self _ _
      exact wsTokensAux_no_ws s.data [] (by intro x hx; cases hx) t htm c
        (by simpa using hc)

/-! ### Hints: shape of `buildHints` -/

theorem buildHints_length (txs : List Tx) (dflt : String) :
    (buildHints txs dflt).length ≤ 20 := by
  unfold buildHints
  rw [List.length_take]
  exact min_le_left _ _

theorem buildHints_nodup (txs : List Tx) (dflt : String) :
    (buildHints txs dflt).Nodup :=
  (List.take_sublist _ _).nodup (List.nodup_dedup _)

theorem buildHints_mem {txs : List Tx} {dflt h : String} (hh : h ∈ buildHints txs dflt) :
    ∃ tx ∈ txs, tx.category = dflt ∧ h = hintOf tx.descr := by
  unfold buildHints at hh
  have h2 := List.mem_dedup.mp (List.mem_of_mem_take hh)
  obtain ⟨tx, htx, he⟩ := List.mem_map.mp h2
  have h3 := List.mem_filter.mp htx
  exact ⟨tx, h3.1, by simpa using h3.2, he.symm⟩

theorem descr_with_ws_not_hint {txs : List Tx} {dflt s : String}
    (hws : ∃ c ∈ s.data, c.isWhitespace = true) : s ∉ buildHints txs dflt := by
  intro hmem
  obtain ⟨tx, _, _, he⟩ := buildHints_mem hmem
  obtain ⟨c, hc, hcw⟩ := hws
  have hf : c.isWhitespace = false := hintOf_no_ws tx.descr c (by rw [← he]; exact hc)
  rw [hf] at hcw
  exact Bool.false_ne_true hcw

/-! ### Projections of a successful `parse_csv` run -/

theorem parse_csv_ok (headers : List String) (rows : List Row) (format_name : Option String)
    (glob : List String) (rules : List Rule) (dflt : String) (use_llm : Bool)
    (afmAvailable : Bool) (afm : String → Option String)
    (valid_categories : Option (List String)) (exclude_transfers : Bool)
    (fmt : Format) (out : Output)
    (hres : resolveFormat format_name headers = Except.ok fmt)
    (hout : parse_csv headers rows format_name glob rules dflt use_llm afmAvailable afm
      valid_categories exclude_transfers = Except.ok out) :
    out = parse_csv_core glob fmt rules dflt use_llm afmAvailable afm valid_categories
      exclude_transfers rows := by
  unfold parse_csv at hout
  rw [hres] at hout
  injection hout with h
  exact h.symm

/-! ### Claim C7 -/

unseal Rat.add Rat.mul Rat.inv Rat.sub in
/-- C7 (counterexample): a successfully parsed row with no description column
has the empty description; its category stays the sentinel and the report's
uncategorized_hints contains the fixed placeholder "Unknown", which is not
the first whitespace-delimited token of any description (the empty
description has no tokens at all) — refuting "contains only the first
whitespace-delimited token of descriptions whose final category remained the
sentinel". -/
theorem c7_counterexample :
    runOutput (parse_csv ["Date", "Amount"]
        [[("Date", "01/02/2024"), ("Amount", "5.00")]]
        (some "commbank") VALID_CATEGORIES [] "Uncategorized"
        false false (fun _ => none) none false) =
      some
        { expenses := [⟨"2024-02-01", 5, "Uncategorized"⟩], income := [],
          total_expenses := 1, total_income := 0, expense_total := 5, income_total := 0,
          by_category := [("Uncategorized", 1)], uncategorized_hints := ["Unknown"] } ∧
    pySplit "" = [] ∧
    rget [("Date", "01/02/2024"), ("Amount", "5.00")] "Description" "" = "" := by
  exact ⟨by decide, by decide, by decide⟩

/-- C7 (amended): for every run, `uncategorized_hints` is deduplicated,
holds at most 20 entries, and contains only the redacted hint of some
transaction whose final category remained the config default — the first
whitespace-delimited token of its description, or the placeholder "Unknown"
when the description is empty. -/
theorem c7_hints_capped_dedup_first_token (headers : List String) (rows : List Row)
    (format_name : Option String) (glob : List String) (rules : List Rule) (dflt : String)
    (use_llm : Bool) (afmAvailable : Bool) (afm : String → Option String)
    (valid_categories : Option (List String)) (exclude_transfers : Bool)
    (fmt : Format) (out : Output)
    (hres : resolveFormat format_name headers = Except.ok fmt)
    (hout : parse_csv headers rows format_name glob rules dflt use_llm afmAvailable afm
      valid_categories exclude_transfers = Except.ok out) :
    out.uncategorized_hints.length ≤ 20 ∧ out.uncategorized_hints.Nodup ∧
    ∀ h ∈ out.uncategorized_hints,
      ∃ tx ∈ pipelineTxs glob fmt rules dflt use_llm afmAvailable afm valid_categories rows,
        tx.category = dflt ∧ h = hintOf tx.descr := by
  rw [parse_csv_ok headers rows format_name glob rules dflt use_llm afmAvailable afm
    valid_categories exclude_transfers fmt out hres hout]
  show (buildHints _ dflt).length ≤ 20 ∧ _
  exact ⟨buildHints_length _ _, buildHints_nodup _ _, fun h hh => buildHints_mem hh⟩

unseal Rat.add Rat.mul Rat.inv Rat.sub in
/-- C7 (witness): the amended statement evaluated on a run whose only
uncategorized description is "FOO BAR": the hints list is exactly ["FOO"]. -/
theorem c7_hints_witness :
    (["FOO"] : List String).length ≤ 20 ∧ (["FOO"] : List String).Nodup ∧
    ∀ h ∈ (["FOO"] : List String),
      ∃ tx ∈ pipelineTxs VALID_CATEGORIES commbankFormat [] "Uncategorized"
          false false (fun _ => none) none
          [[("Date", "01/02/2024"), ("Amount", "5.00"), ("Description", "FOO BAR")]],
        tx.category = "Uncategorized" ∧ h = hintOf tx.descr :=
  c7_hints_capped_dedup_first_token ["Date", "Amount", "Description"]
    [[("Date", "01/02/2024"), ("Amount", "5.00"), ("Description", "FOO BAR")]]
    (some "commbank") VALID_CATEGORIES [] "Uncategorized" false false (fun _ => none)
    none false commbankFormat
    { expenses := [⟨"2024-02-01", 5, "Uncategorized"⟩], income := [],
      total_expenses := 1, total_income := 0, expense_total := 5, income_total := 0,
      by_category := [("Uncategorized", 1)], uncategorized_hints := ["FOO"] }
    rfl rfl

/-! ### Claim C1 -/

unseal Rat.add Rat.mul Rat.inv Rat.sub in
/-- C1 (counterexample): for a run whose only input description is the
single word "WOOLWORTHS" and which stays uncategorized, the JSON report's
uncategorized_hints contains the string "WOOLWORTHS" — a substring equal to
(indeed identical to) the raw input description — refuting the claimed
privacy invariant for single-word descriptions. -/
theorem c1_counterexample :
    runOutput (parse_csv ["Date", "Amount", "Description"]
        [[("Date", "01/02/2024"), ("Amount", "5.00"), ("Description", "WOOLWORTHS")]]
        none VALID_CATEGORIES [] "Uncategorized" false false (fun _ => none) none false) =
      some
        { expenses := [⟨"2024-02-01", 5, "Uncategorized"⟩], income := [],
          total_expenses := 1, total_income := 0, expense_total := 5, income_total := 0,
          by_category := [("Uncategorized", 1)], uncategorized_hints := ["WOOLWORTHS"] } ∧
    rget [("Date", "01/02/2024"), ("Amount", "5.00"), ("Description", "WOOLWORTHS")]
        "Description" "" = "WOOLWORTHS" := by
  exact ⟨by decide, by decide⟩

/-- C1 (amended): the report's transaction entries and the import CSV carry
only date, amount and category; the only description-derived output is
`uncategorized_hints`, whose entries are whitespace-free first tokens (or
the placeholder "Unknown").  Hence a raw description can appear in the
output only when it is itself a single whitespace-delimited token: every
parsed transaction description with at least two tokens never appears in
`uncategorized_hints`. -/
theorem c1_multiword_descriptions_never_output (headers : List String) (rows : List Row)
    (format_name : Option String) (glob : List String) (rules : List Rule) (dflt : String)
    (use_llm : Bool) (afmAvailable : Bool) (afm : String → Option String)
    (valid_categories : Option (List String)) (exclude_transfers : Bool)
    (fmt : Format) (out : Output)
    (hres : resolveFormat format_name headers = Except.ok fmt)
    (hout : parse_csv headers rows format_name glob rules dflt use_llm afmAvailable afm
      valid_categories exclude_transfers = Except.ok out) :
    ∀ tx ∈ pipelineTxs glob fmt rules dflt use_llm afmAvailable afm valid_categories rows,
      2 ≤ (pySplit tx.descr).length → tx.descr ∉ out.uncategorized_hints := by
  intro tx _ h2
  rw [parse_csv_ok headers rows format_name glob rules dflt use_llm afmAvailable afm
    valid_categories exclude_transfers fmt out hres hout]
  exact descr_with_ws_not_hint (pySplit_two_tokens h2)

unseal Rat.add Rat.mul Rat.inv Rat.sub in
/-- C1 (witness): the amended statement evaluated on a run with the
two-token uncategorized description "FOO BAR": the description itself does
not appear among the hints (which hold only the token "FOO"). -/
theorem c1_multiword_witness : ("FOO BAR" : String) ∉ (["FOO"] : List String) :=
  c1_multiword_descriptions_never_output ["Date", "Amount", "Description"]
    [[("Date", "01/02/2024"), ("Amount", "5.00"), ("Description", "FOO BAR")]]
    (some "commbank") VALID_CATEGORIES [] "Uncategorized" false false (fun _ => none)
    none false commbankFormat
    { expenses := [⟨"2024-02-01", 5, "Uncategorized"⟩], income := [],
      total_expenses := 1, total_income := 0, expense_total := 5, income_total := 0,
      by_category := [("Uncategorized", 1)], uncategorized_hints := ["FOO"] }
    rfl rfl
    { date := "2024-02-01", amount := 5, category := "Uncategorized",
      is_expense := true, descr := "FOO BAR" }
    (by decide) (by decide)

/-! ### Category membership through the pipeline (for C3) -/

theorem categorize_cases (d : String) (rules : List Rule) (dflt : String) :
    categorize d rules dflt = dflt ∨ categorize d rules dflt ∈ rules.map Rule.category := by
  unfold categorize
  cases hf : rules.find? (fun r => pyIn (pyUpper r.pattern) (pyUpper d)) with
  | none => exact Or.inl rfl
  | some r => exact Or.inr (List.mem_map.mpr ⟨r, List.mem_of_find?_eq_some hf, rfl⟩)

theorem lookupMapping_mem {c s v : String} (h : lookupMapping c s = some v) :
    v ∈ CATEGORY_MAPPING.map Prod.snd := by
  unfold lookupMapping at h
  cases hf : CATEGORY_MAPPING.find? (fun e => e.1.1 == c && e.1.2 == s) with
  | none => rw [hf] at h; cases h
  | some e =>
    rw [hf] at h
    injection h with h2
    exact h2 ▸ List.mem_map.mpr ⟨e, List.mem_of_find?_eq_some hf, rfl⟩

theorem mappingValues_valid : ∀ v ∈ CATEGORY_MAPPING.map Prod.snd, v ∈ VALID_CATEGORIES := by
  decide

theorem map_external_cases (glob : List String) (c s : String) :
    map_external_category glob c s ∈ VALID_CATEGORIES ∨ map_external_category glob c s ∈ glob := by
  unfold map_external_category
  cases h1 : lookupMapping c s with
  | some v => exact Or.inl (mappingValues_valid v (lookupMapping_mem h1))
  | none =>
    cases h2 : lookupMapping c "" with
    | some v => exact Or.inl (mappingValues_valid v (lookupMapping_mem h2))
    | none =>
      cases h3 : glob.find? (fun valid =>
          pyIn (pyLower valid) (pyLower c) || pyIn (pyLower c) (pyLower valid)) with
      | some v => exact Or.inr (List.mem_of_find?_eq_some h3)
      | none => exact Or.inl (by decide)

theorem resolve_existing_cases (glob : List String) (rules : List Rule) (dflt d c s : String) :
    resolve_existing glob rules dflt d c s = dflt ∨
    resolve_existing glob rules dflt d c s ∈ rules.map Rule.category ∨
    resolve_existing glob rules dflt d c s ∈ VALID_CATEGORIES ∨
    resolve_existing glob rules dflt d c s ∈ glob := by
  unfold resolve_existing
  by_cases hb : (map_external_category glob c s == dflt) = true
  · rw [if_pos hb]
    rcases categorize_cases d rules dflt with h | h
    · exact Or.inl h
    · exact Or.inr (Or.inl h)
  · rw [if_neg hb]
    rcases map_external_cases glob c s with h | h
    · exact Or.inr (Or.inr (Or.inl h))
    · exact Or.inr (Or.inr (Or.inr h))

theorem rowCategory_cases (glob : List String) (fmt : Format) (rules : List Rule)
    (dflt : String) (row : Row) (d : String) :
    rowCategory glob fmt rules dflt row d = dflt ∨
    rowCategory glob fmt rules dflt row d ∈ rules.map Rule.category ∨
    rowCategory glob fmt rules dflt row d ∈ VALID_CATEGORIES ∨
    rowCategory glob fmt rules dflt row d ∈ glob := by
  unfold rowCategory
  cases hcc : fmt.category_col with
  | some ccol =>
    simp only [hcc]
    exact resolve_existing_cases glob rules dflt d _ _
  | none =>
    simp only [hcc]
    rcases categorize_cases d rules dflt with h | h
    · exact Or.inl h
    · exact Or.inr (Or.inl h)

theorem rowTx_amount (glob : List String) (fmt : Format) (rules : List Rule) (dflt : String)
    (row : Row) (a : ℚ) (e : Bool) : (rowTx glob fmt rules dflt row a e).amount = |a| := rfl

theorem rowTx_category (glob : List String) (fmt : Format) (rules : List Rule) (dflt : String)
    (row : Row) (a : ℚ) (e : Bool) :
    (rowTx glob fmt rules dflt row a e).category =
      rowCategory glob fmt rules dflt row (pyStrip (rget row fmt.description_col "")) := rfl

theorem parse_row_ok_cases {glob : List String} {fmt : Format} {rules : List Rule}
    {dflt : String} {row : Row} {tx : Tx}
    (h : parse_row glob fmt rules dflt row = RowOutcome.ok tx) :
    0 ≤ tx.amount ∧
    (tx.category = dflt ∨ tx.category ∈ rules.map Rule.category ∨
     tx.category ∈ VALID_CATEGORIES ∨ tx.category ∈ glob) := by
  have hTx : ∃ a e, tx = rowTx glob fmt rules dflt row a e := by
    unfold parse_row at h
    cases hdc : fmt.debit_col with
    | none =>
      simp only [hdc] at h
      cases hf : pyFloat (stripMoney (pyStrip (rget row (fmt.amount_col.getD "Amount") "0"))) with
      | none => rw [hf] at h; simp at h
      | some a =>
        rw [hf] at h
        injection h with h2
        exact ⟨a, _, h2.symm⟩
    | some dcol =>
      simp only [hdc] at h
      cases hcc : fmt.credit_col with
      | none => simp only [hcc] at h; simp at h
      | some ccol =>
        simp only [hcc] at h
        by_cases h1 : pyStrip (rget row dcol "") ≠ ""
        · rw [if_pos h1] at h
          cases hf : pyFloat (stripMoney (pyStrip (rget row dcol ""))) with
          | none => rw [hf] at h; simp at h
          | some a =>
            rw [hf] at h
            injection h with h2
            exact ⟨a, true, h2.symm⟩
        · rw [if_neg h1] at h
          by_cases h2 : pyStrip (rget row ccol "") ≠ ""
          · rw [if_pos h2] at h
            cases hf : pyFloat (stripMoney (pyStrip (rget row ccol ""))) with
            | none => rw [hf] at h; simp at h
            | some a =>
              rw [hf] at h
              injection h with h3
              exact ⟨a, false, h3.symm⟩
          · rw [if_neg h2] at h
            simp at h
  obtain ⟨a, e, rfl⟩ := hTx
  refine ⟨?_, ?_⟩
  · rw [rowTx_amount]
    exact abs_nonneg a
  · rw [rowTx_category]
    exact rowCategory_cases glob fmt rules dflt row _

theorem runRows_mem {glob : List String} {fmt : Format} {rules : List Rule} {dflt : String}
    {rows : List Row} {tx : Tx} (h : tx ∈ runRows glob fmt rules dflt rows) :
    ∃ r ∈ rows, parse_row glob fmt rules dflt r = RowOutcome.ok tx := by
  unfold runRows at h
  obtain ⟨r, hr, he⟩ := List.mem_filterMap.mp h
  refine ⟨r, hr, ?_⟩
  cases ho : parse_row glob fmt rules dflt r with
  | ok t =>
    rw [ho] at he
    have h2 : some t = some tx := he
    injection h2 with h3
    rw [h3]
  | skipSilent => rw [ho] at he; cases he
  | skipWarn => rw [ho] at he; cases he

theorem alookup_mem {l : List (String × String)} {k v : String} (h : alookup l k = some v) :
    ∃ p ∈ l, p.2 = v := by
  unfold alookup at h
  cases hf : l.find? (fun p => p.1 == k) with
  | none => rw [hf] at h; cases h
  | some p =>
    rw [hf] at h
    injection h with h2
    exact ⟨p, List.mem_of_find?_eq_some hf, h2⟩

theorem individualResults_cases {afm : String → Option String} {descs valid : List String}
    {p : String × String} (h : p ∈ individualResults afm descs valid) :
    p.2 = "Uncategorized" ∨ p.2 ∈ valid := by
  unfold individualResults at h
  obtain ⟨d, hd, he⟩ := List.mem_map.mp h
  cases ha : afm (individualPrompt d valid) with
  | some out =>
    rw [ha] at he
    rw [← he]
    exact match_category_mem (pyStrip out) valid
  | none =>
    rw [ha] at he
    rw [← he]
    exact Or.inl rfl

theorem afmBatchResults_cases {descs lines valid : List String} {p : String × String}
    (h : p ∈ afmBatchResults descs lines valid) :
    p.2 = "Uncategorized" ∨ p.2 ∈ valid := by
  unfold afmBatchResults at h
  obtain ⟨q, hq, he⟩ := List.mem_map.mp h
  rw [← he]
  exact match_category_mem _ _

theorem categorize_with_afm_cases {av : Bool} {afm : String → Option String}
    {descs valid : List String} {p : String × String}
    (h : p ∈ categorize_with_afm av afm descs valid) :
    p.2 = "Uncategorized" ∨ p.2 ∈ valid := by
  unfold categorize_with_afm at h
  by_cases hav : (!av) = true
  · rw [if_pos hav] at h
    cases h
  · rw [if_neg hav] at h
    by_cases hl : descs.length > 1
    · rw [if_pos hl] at h
      cases hb : afm (batchPrompt descs valid) with
      | some out => rw [hb] at h; exact afmBatchResults_cases h
      | none => rw [hb] at h; exact individualResults_cases h
    · rw [if_neg hl] at h
      exact individualResults_cases h

theorem applyLlm_cases {llm : List (String × String)} {dflt : String} {txs : List Tx}
    {tx' : Tx} (h : tx' ∈ applyLlm llm dflt txs) :
    ∃ tx ∈ txs, tx'.amount = tx.amount ∧
      (tx'.category = tx.category ∨ ∃ p ∈ llm, tx'.category = p.2) := by
  unfold applyLlm at h
  obtain ⟨tx, htx, he⟩ := List.mem_map.mp h
  refine ⟨tx, htx, ?_⟩
  have hval : (if (tx.category == dflt) = true then
      match alookup llm tx.descr with
      | some c => { tx with category := c }
      | none => tx
    else tx) = tx' := he
  by_cases hc : (tx.category == dflt) = true
  · rw [if_pos hc] at hval
    cases ha : alookup llm tx.descr with
    | some c =>
      rw [ha] at hval
      obtain ⟨p, hp, hpv⟩ := alookup_mem ha
      refine ⟨?_, Or.inr ⟨p, hp, ?_⟩⟩
      · rw [← hval]
      · rw [← hval]
        exact hpv.symm
    | none =>
      rw [ha] at hval
      subst hval
      exact ⟨rfl, Or.inl rfl⟩
  · rw [if_neg hc] at hval
    subst hval
    exact ⟨rfl, Or.inl rfl⟩

theorem pipelineTxs_cases {glob : List String} {fmt : Format} {rules : List Rule}
    {dflt : String} {use_llm av : Bool} {afm : String → Option String}
    {vc : Option (List String)} {rows : List Row} {tx : Tx}
    (h : tx ∈ pipelineTxs glob fmt rules dflt use_llm av afm vc rows) :
    0 ≤ tx.amount ∧
    (tx.category = dflt ∨ tx.category ∈ rules.map Rule.category ∨
     tx.category ∈ VALID_CATEGORIES ∨ tx.category ∈ glob ∨
     tx.category ∈ catsForLlm vc) := by
  unfold pipelineTxs at h
  by_cases hcond : (use_llm &&
      !(uncategorizedDescs (runRows glob fmt rules dflt rows) dflt).isEmpty) = true
  · rw [if_pos hcond] at h
    obtain ⟨tx0, htx0, hamt, hcat⟩ := applyLlm_cases h
    obtain ⟨r, hr, hok⟩ := runRows_mem htx0
    have base := parse_row_ok_cases hok
    refine ⟨by rw [hamt]; exact base.1, ?_⟩
    rcases hcat with hc | ⟨p, hp, hpv⟩
    · rw [hc]
      tauto
    · rcases categorize_with_afm_cases hp with h1 | h1
      · rw [hpv, h1]
        exact Or.inr (Or.inr (Or.inl (by decide)))
      · rw [hpv]
        exact Or.inr (Or.inr (Or.inr (Or.inr h1)))
  · rw [if_neg hcond] at h
    obtain ⟨r, hr, hok⟩ := runRows_mem h
    have base := parse_row_ok_cases hok
    refine ⟨base.1, ?_⟩
    have := base.2
    tauto

theorem expensesOf_mem {glob : List String} {fmt : Format} {rules : List Rule} {dflt : String}
    {use_llm av : Bool} {afm : String → Option String} {vc : Option (List String)}
    {excl : Bool} {rows : List Row} {a : Anon}
    (h : a ∈ expensesOf glob fmt rules dflt use_llm av afm vc excl rows) :
    ∃ tx ∈ pipelineTxs glob fmt rules dflt use_llm av afm vc rows,
      a.amount = tx.amount ∧ a.category = tx.category := by
  unfold expensesOf at h
  obtain ⟨tx, htx, he⟩ := List.mem_map.mp h
  have h1 := (List.mem_filter.mp htx).1
  unfold keptTxs at h1
  exact ⟨tx, (List.mem_filter.mp h1).1, by rw [← he], by rw [← he]⟩

theorem incomeOf_mem {glob : List String} {fmt : Format} {rules : List Rule} {dflt : String}
    {use_llm av : Bool} {afm : String → Option String} {vc : Option (List String)}
    {excl : Bool} {rows : List Row} {a : Anon}
    (h : a ∈ incomeOf glob fmt rules dflt use_llm av afm vc excl rows) :
    ∃ tx ∈ pipelineTxs glob fmt rules dflt use_llm av afm vc rows,
      a.amount = tx.amount ∧ a.category = tx.category := by
  unfold incomeOf at h
  obtain ⟨tx, htx, he⟩ := List.mem_map.mp h
  have h1 := (List.mem_filter.mp htx).1
  unfold keptTxs at h1
  exact ⟨tx, (List.mem_filter.mp h1).1, by rw [← he], by rw [← he]⟩

/-! ### Claim C3 -/

unseal Rat.add Rat.mul Rat.inv Rat.sub in
/-- C3 (counterexample): a user rule `pattern "FOO" → category "Banana"`
produces a successfully normalized expense whose final category "Banana" is
neither in the category vocabulary nor the sentinel "Uncategorized" —
refuting the membership half of the claim for rule-produced categories. -/
theorem c3_counterexample :
    runOutput (parse_csv ["Date", "Amount", "Description"]
        [[("Date", "01/02/2024"), ("Amount", "45.00"), ("Description", "FOO MART")]]
        none VALID_CATEGORIES [⟨"FOO", "Banana"⟩] "Uncategorized"
        false false (fun _ => none) none false) =
      some
        { expenses := [⟨"2024-02-01", 45, "Banana"⟩], income := [],
          total_expenses := 1, total_income := 0, expense_total := 45, income_total := 0,
          by_category := [("Banana", 1)], uncategorized_hints := [] } ∧
    ("Banana" : String) ∉ VALID_CATEGORIES ∧ ("Banana" : String) ≠ "Uncategorized" := by
  exact ⟨by decide, by decide, by decide⟩

/-- C3 (amended): every successfully normalized transaction in the output
has amount ≥ 0, and its final category belongs to the built-in vocabulary,
the package-level vocabulary used for fuzzy matching, the vocabulary given
to the LLM, the config default category, or the set of category names
supplied by the user's rules — user-supplied rules and defaults can inject
categories outside vocabulary ∪ sentinel. -/
theorem c3_amount_nonneg_category_provenance (headers : List String) (rows : List Row)
    (format_name : Option String) (glob : List String) (rules : List Rule) (dflt : String)
    (use_llm : Bool) (afmAvailable : Bool) (afm : String → Option String)
    (valid_categories : Option (List String)) (exclude_transfers : Bool)
    (fmt : Format) (out : Output)
    (hres : resolveFormat format_name headers = Except.ok fmt)
    (hout : parse_csv headers rows format_name glob rules dflt use_llm afmAvailable afm
      valid_categories exclude_transfers = Except.ok out) :
    ∀ a ∈ out.expenses ++ out.income,
      0 ≤ a.amount ∧
      (a.category ∈ VALID_CATEGORIES ∨ a.category ∈ glob ∨
       a.category ∈ catsForLlm valid_categories ∨ a.category = dflt ∨
       a.category ∈ rules.map Rule.category) := by
  intro a ha
  rw [parse_csv_ok headers rows format_name glob rules dflt use_llm afmAvailable afm
    valid_categories exclude_transfers fmt out hres hout] at ha
  have ha' : a ∈ expensesOf glob fmt rules dflt use_llm afmAvailable afm valid_categories
      exclude_transfers rows ++ incomeOf glob fmt rules dflt use_llm afmAvailable afm
      valid_categories exclude_transfers rows := ha
  have key : ∃ tx ∈ pipelineTxs glob fmt rules dflt use_llm afmAvailable afm valid_categories
      rows, a.amount = tx.amount ∧ a.category = tx.category := by
    rcases List.mem_append.mp ha' with h | h
    · exact expensesOf_mem h
    · exact incomeOf_mem h
  obtain ⟨tx, htx, hamt, hcat⟩ := key
  obtain ⟨hge, hdisj⟩ := pipelineTxs_cases htx
  refine ⟨by rw [hamt]; exact hge, ?_⟩
  rw [hcat]
  tauto

unseal Rat.add Rat.mul Rat.inv Rat.sub in
/-- C3 (witness): the amended statement evaluated on a run with the rule
`"WOOLWORTH" → "Groceries"`: the single expense has amount 45 ≥ 0 and its
category "Groceries" is in the built-in vocabulary. -/
theorem c3_provenance_witness :
    0 ≤ (Anon.mk "2024-02-01" 45 "Groceries").amount ∧
    ((Anon.mk "2024-02-01" 45 "Groceries").category ∈ VALID_CATEGORIES ∨
     (Anon.mk "2024-02-01" 45 "Groceries").category ∈ VALID_CATEGORIES ∨
     (Anon.mk "2024-02-01" 45 "Groceries").category ∈ catsForLlm none ∨
     (Anon.mk "2024-02-01" 45 "Groceries").category = "Uncategorized" ∨
     (Anon.mk "2024-02-01" 45 "Groceries").category ∈
       ([⟨"WOOLWORTH", "Groceries"⟩] : List Rule).map Rule.category) :=
  c3_amount_nonneg_category_provenance ["Date", "Amount", "Description"]
    [[("Date", "01/02/2024"), ("Amount", "45.00"), ("Description", "WOOLWORTHS")]]
    none VALID_CATEGORIES [⟨"WOOLWORTH", "Groceries"⟩] "Uncategorized"
    false false (fun _ => none) none false commbankFormat
    { expenses := [⟨"2024-02-01", 45, "Groceries"⟩], income := [],
      total_expenses := 1, total_income := 0, expense_total := 45, income_total := 0,
      by_category := [("Groceries", 1)], uncategorized_hints := [] }
    rfl rfl (Anon.mk "2024-02-01" 45 "Groceries") (by decide)
